import Mathlib

/-!
Verification of the OBF read-only decoder (`obf_support.py`).

Shallow embedding conventions:
* A file is a `List ℕ` of bytes (each value taken mod 256 by the readers).
* All multi-byte fields are little-endian, as in the struct format strings
  `<10sIQI` (file header) and `<16s17I30d5I3Q` (stack header).
* Python exceptions are modelled with `Except PyError`.
* The 15 on-disk `double` entries (lengths, offsets) are kept as their raw
  64-bit patterns inside `Stack`; where the code divides by shape entries
  (`pixel_sizes`) the float values are idealized as exact rationals.
* `zlib.decompress` is an external library call; it is modelled as an
  arbitrary function `inflate : List ℕ → Option (List ℕ)` over which the
  theorems quantify (`Option.none` models a raised `zlib.error`).
* `numpy` arrays are modelled as a shape together with the flat element list
  in C order (row-major, last axis fastest).
* The unbounded `while next_stack_pos != 0` loop of `File.__init__` is
  modelled with explicit fuel; exhausting the fuel yields the distinguished
  error `PyError.outOfFuel` (the source would keep looping).
-/

set_option maxRecDepth 16384

deriving instance DecidableEq for Except

/-- Little-endian value of a byte list (least significant byte first). -/
def leNat : List ℕ → ℕ
  | [] => 0
  | b :: bs => b % 256 + 256 * leNat bs

/-- Read a little-endian uint32 at byte offset `off`, as `struct` does for `I`. -/
def readU32 (data : List ℕ) (off : ℕ) : ℕ := leNat ((data.drop off).take 4)

/-- Read a little-endian uint64 at byte offset `off`, as `struct` does for `Q`
(also used for the raw bit pattern of a little-endian float64 `d`). -/
def readU64 (data : List ℕ) (off : ℕ) : ℕ := leNat ((data.drop off).take 8)

/-- Little-endian 4-byte encoding of a uint32 (used to build test inputs). -/
def u32le (n : ℕ) : List ℕ :=
  [n % 256, n / 256 % 256, n / 256 ^ 2 % 256, n / 256 ^ 3 % 256]

/-- Little-endian 8-byte encoding of a uint64 (used to build test inputs). -/
def u64le (n : ℕ) : List ℕ :=
  [n % 256, n / 256 % 256, n / 256 ^ 2 % 256, n / 256 ^ 3 % 256,
   n / 256 ^ 4 % 256, n / 256 ^ 5 % 256, n / 256 ^ 6 % 256, n / 256 ^ 7 % 256]

/-- `FILE_MAGIC_HEADER = b"OMAS_BF\n\xff\xff"` (10 bytes). -/
def FILE_MAGIC_HEADER : List ℕ := [79, 77, 65, 83, 95, 66, 70, 10, 255, 255]

/-- `STACK_MAGIC_HEADER = b"OMAS_BF_STACK\n\xff\xff"` (16 bytes). -/
def STACK_MAGIC_HEADER : List ℕ :=
  [79, 77, 65, 83, 95, 66, 70, 95, 83, 84, 65, 67, 75, 10, 255, 255]

/-- The keys of the `omas_data_types` dictionary
`{1: uint8, 2: int8, 4: uint16, 8: int16, 16: uint32, 32: int32, 64: float32, 128: float64}`. -/
def omas_data_types : List ℕ := [1, 2, 4, 8, 16, 32, 64, 128]

/-- `struct.calcsize("<10sIQI")`: the fixed file header is 26 bytes. -/
def file_header_len : ℕ := 26

/-- `struct.calcsize("<16s17I30d5I3Q")`: the fixed stack header is 368 bytes. -/
def stack_header_len : ℕ := 368

/-- One entry of the 56-tuple returned by `struct.unpack("<16s17I30d5I3Q", ...)`:
a bytes object, an integer, or a float (kept as its raw 64-bit pattern). -/
inductive TupleEntry where
  | bs (bytes : List ℕ)
  | num (n : ℕ)
  | f64 (bits : ℕ)
deriving DecidableEq, Repr

/-- Python exceptions raised by the code paths under study. -/
inductive PyError where
  /-- `RuntimeError(msg)` raised explicitly by `File.__init__`. -/
  | runtimeError (msg : String)
  /-- `struct.error`: the read buffer is shorter than the struct format needs. -/
  | structError
  /-- `zlib.error` from a failed `zlib.decompress`. -/
  | zlibError
  /-- `ValueError` from `np.frombuffer` (odd byte count) or `np.reshape`
  (element count does not match the product of the shape). -/
  | valueError
  /-- `ZeroDivisionError` from `l / n` with `n == 0` in `pixel_sizes`. -/
  | zeroDivision
  /-- Fuel for the directory walk ran out (the source would loop on). -/
  | outOfFuel
  /-- A lengths entry is an IEEE infinity or NaN pattern, which the rational
  idealization of Python floats cannot represent. -/
  | floatUnrepresentable
deriving DecidableEq, Repr

/-- The 56-tuple `values = stack_header_unpack(data)` for the format
`<16s17I30d5I3Q`: values[0] is the 16-byte magic, values[1..17] the 17 uint32
fields, values[18..47] the 30 float64 fields (raw bit patterns), values[48..52]
the remaining 5 uint32 fields, values[53..55] the 3 uint64 fields.  Byte
offsets follow the packed little-endian layout: uint32 block at 16, float64
block at 84, second uint32 block at 324, uint64 block at 344. -/
def stackHeaderUnpack (buf : List ℕ) : List TupleEntry :=
  TupleEntry.bs (buf.take 16) ::
    ((List.range 17).map (fun k => TupleEntry.num (readU32 buf (16 + 4 * k)))
      ++ (List.range 30).map (fun k => TupleEntry.f64 (readU64 buf (84 + 8 * k)))
      ++ (List.range 5).map (fun k => TupleEntry.num (readU32 buf (324 + 4 * k)))
      ++ (List.range 3).map (fun k => TupleEntry.num (readU64 buf (344 + 8 * k))))

/-- Python tuple indexing `values[i]` (never out of range in the modelled code). -/
def valField (vs : List TupleEntry) (i : ℕ) : TupleEntry := vs.getD i (TupleEntry.num 0)

/-- The numeric payload of a tuple entry. -/
def fieldNat : TupleEntry → ℕ
  | TupleEntry.bs _ => 0
  | TupleEntry.num n => n
  | TupleEntry.f64 n => n

/-- Python tuple indexing followed by taking the numeric value. -/
def valNat (vs : List TupleEntry) (i : ℕ) : ℕ := fieldNat (valField vs i)

/-- Python tuple slicing `values[a:b]` (with `a ≤ b` within range). -/
def sliceVals (vs : List TupleEntry) (a b : ℕ) : List TupleEntry := (vs.drop a).take (b - a)

/-- The fields of one stack header as interpreted by `File.__init__`
(lines 105-121 of `obf_support.py`).  `lengths` and `offsets` hold the raw
64-bit patterns of the on-disk float64 entries. -/
structure RawStackHeader where
  format_version : ℕ
  rank : ℕ
  shape : List ℕ
  lengths : List ℕ
  offsets : List ℕ
  data_type : ℕ
  compression_type : ℕ
  name_len : ℕ
  desc_len : ℕ
  data_length : ℕ
  next_pos : ℕ
deriving DecidableEq, Repr

/-- Parsing of one stack header from the 368-byte read buffer, translating
lines 100-121 of `obf_support.py`:
`values = stack_header_unpack(data)`; magic check; `rank = values[2]`;
`shape = values[3:17][:rank]`; `lengths = values[18:32][:rank]`;
`offsets = values[33:47][:rank]`; `data_type = values[48]` with membership
check in `omas_data_types`; `compression_type = values[49]`;
`name_length = values[51]`; `description_length = values[52]`;
`data_length = values[54]`; `next_stack_pos = values[55]`.
A buffer shorter than 368 bytes makes `unpack` raise `struct.error`. -/
def parseStackHeader (buf : List ℕ) : Except PyError RawStackHeader :=
  if buf.length < 368 then .error .structError
  else if valField (stackHeaderUnpack buf) 0 = TupleEntry.bs STACK_MAGIC_HEADER then
    if valNat (stackHeaderUnpack buf) 48 ∈ omas_data_types then
      .ok { format_version := valNat (stackHeaderUnpack buf) 1
            rank := valNat (stackHeaderUnpack buf) 2
            shape := ((sliceVals (stackHeaderUnpack buf) 3 17).take
              (valNat (stackHeaderUnpack buf) 2)).map fieldNat
            lengths := ((sliceVals (stackHeaderUnpack buf) 18 32).take
              (valNat (stackHeaderUnpack buf) 2)).map fieldNat
            offsets := ((sliceVals (stackHeaderUnpack buf) 33 47).take
              (valNat (stackHeaderUnpack buf) 2)).map fieldNat
            data_type := valNat (stackHeaderUnpack buf) 48
            compression_type := valNat (stackHeaderUnpack buf) 49
            name_len := valNat (stackHeaderUnpack buf) 51
            desc_len := valNat (stackHeaderUnpack buf) 52
            data_length := valNat (stackHeaderUnpack buf) 54
            next_pos := valNat (stackHeaderUnpack buf) 55 }
    else .error (.runtimeError "Unsupported data type.")
  else .error (.runtimeError "Magic stack header not found.")

/-- The metadata held by one `Stack` object, with the constructor arguments of
`Stack.__init__` (the back reference `obf` is implicit: the file bytes are
passed to the functions that need them).  `lengths` and `offsets` are the raw
float64 bit patterns; `data_type` is the on-disk code (the dictionary lookup
`omas_data_types[data_type]` only replaces the code by a numpy dtype object
that the rest of the code never consults). -/
structure Stack where
  format_version : ℕ
  name : List ℕ
  description : List ℕ
  shape : List ℕ
  lengths : List ℕ
  offsets : List ℕ
  data_type : ℕ
  compression_type : ℕ
  data_pos : ℕ
  data_length : ℕ
deriving DecidableEq, Repr

/-- `File._read_string(length)` after a seek to `off`: `read(length)` followed
by `struct.unpack_from("<{length}s", data)`, which raises `struct.error` when
fewer than `length` bytes were available.  (The subsequent UTF-8 decode is not
modelled; names are kept as byte lists.) -/
def readString (file : List ℕ) (off len : ℕ) : Except PyError (List ℕ) :=
  if ((file.drop off).take len).length = len then .ok ((file.drop off).take len)
  else .error .structError

/-- The `while next_stack_pos != 0` loop of `File.__init__` (lines 94-130):
seek to `pos`, read `stack_header_len` bytes, parse the header, read the
length-prefixed name and description, record `data_pos = self._file.tell()`
(the position right after the description), build the `Stack`, append it, and
continue at the next offset from the header.  `fuel` bounds the number of
iterations observed. -/
def walkStacks (file : List ℕ) (pos : ℕ) (fuel : ℕ) : Except PyError (List Stack) :=
  match fuel with
  | 0 => .error .outOfFuel
  | fuel + 1 =>
    if pos = 0 then .ok []
    else
      match parseStackHeader ((file.drop pos).take stack_header_len) with
      | .error e => .error e
      | .ok r =>
        match readString file (pos + stack_header_len) r.name_len with
        | .error e => .error e
        | .ok nm =>
          match readString file (pos + stack_header_len + r.name_len) r.desc_len with
          | .error e => .error e
          | .ok ds =>
            match walkStacks file r.next_pos fuel with
            | .error e => .error e
            | .ok rest =>
              .ok ({ format_version := r.format_version
                     name := nm
                     description := ds
                     shape := r.shape
                     lengths := r.lengths
                     offsets := r.offsets
                     data_type := r.data_type
                     compression_type := r.compression_type
                     data_pos := pos + stack_header_len + r.name_len + r.desc_len
                     data_length := r.data_length } :: rest)

/-- The state of a freshly opened `File` object: `format_version`,
`description` and the `stacks` list, in on-disk directory order (the source
attribute is named `stacks`; that word is a reserved token here, so the field
is called `stackList`). -/
structure FileModel where
  format_version : ℕ
  description : List ℕ
  stackList : List Stack
deriving DecidableEq, Repr

/-- `File.__init__` (lines 78-130): read the 26-byte file header
`<10sIQI> = (magic, format_version, first_stack_pos, description_len)`,
check the magic, read the description, then walk the stack directory starting
at `first_stack_pos`. -/
def obfOpen (file : List ℕ) (fuel : ℕ) : Except PyError FileModel :=
  if file.length < file_header_len then .error .structError
  else if file.take 10 = FILE_MAGIC_HEADER then
    match readString file 26 (readU32 file 22) with
    | .error e => .error e
    | .ok ds =>
      match walkStacks file (readU64 file 14) fuel with
      | .error e => .error e
      | .ok sts =>
        .ok { format_version := readU32 file 10, description := ds, stackList := sts }
  else .error (.runtimeError "Magic file header not found.")

/-- A numpy array: its shape and the flat element list in C order
(row-major, last axis varying fastest). -/
structure NDArray where
  shape : List ℕ
  data : List ℤ
deriving DecidableEq, Repr

/-- Successive 2-byte little-endian groups as signed 16-bit values. -/
def toInt16s : List ℕ → List ℤ
  | b0 :: b1 :: rest =>
    (if b0 % 256 + 256 * (b1 % 256) < 32768 then ((b0 % 256 + 256 * (b1 % 256) : ℕ) : ℤ)
     else ((b0 % 256 + 256 * (b1 % 256) : ℕ) : ℤ) - 65536) :: toInt16s rest
  | _ => []

/-- `np.frombuffer(data, dtype=np.int16)`: the buffer is reinterpreted as
16-bit signed integers, two bytes per element; a `ValueError` is raised when
the byte count is odd.  `np.int16` uses the native byte order of the host;
the platforms the library runs on are little-endian (matching the little-
endian file format), so the decode is modelled as little-endian. -/
def decodeInt16LE (data : List ℕ) : Except PyError (List ℤ) :=
  if data.length % 2 = 0 then .ok (toInt16s data) else .error .valueError

/-- `np.reshape(array, shape)` of a flat array: the flat C-order data is kept
and the shape attached; a `ValueError` is raised when the element count does
not equal the product of the shape. -/
def npReshape (elts : List ℤ) (shape : List ℕ) : Except PyError NDArray :=
  if shape.prod = elts.length then .ok { shape := shape, data := elts }
  else .error .valueError

/-- C-order linearization of a multi-index: Horner evaluation over the shape. -/
def linIndex (shape idx : List ℕ) : ℕ :=
  (shape.zip idx).foldl (fun acc p => acc * p.1 + p.2) 0

/-- Digits of `l` with respect to the reversed shape, fastest axis first. -/
def unlinAux : List ℕ → ℕ → List ℕ
  | [], _ => []
  | d :: ds, l => (l % d) :: unlinAux ds (l / d)

/-- C-order multi-index of flat position `l` in an array of shape `shape`
(last axis varies fastest). -/
def unlin (shape : List ℕ) (l : ℕ) : List ℕ := (unlinAux shape.reverse l).reverse

/-- `np.transpose(a)`: reverse the axis order.  Element `(i_0, ..., i_k)` of
the result is element `(i_k, ..., i_0)` of `a`; the result is stored in
C order for its reversed shape. -/
def npTranspose (a : NDArray) : NDArray :=
  { shape := a.shape.reverse
    data := (List.range a.data.length).map
      (fun l => a.data.getD (linIndex a.shape ((unlin a.shape.reverse l).reverse)) 0) }

/-- `File._read_stack` (lines 164-191): seek to `stack._data_pos`, read
`stack._data_length` bytes, decompress with zlib when
`stack._compression_type == 1`, reinterpret the buffer via
`np.frombuffer(data, dtype=np.int16)`, reshape with the reversed shape and
transpose.  `inflate` models `zlib.decompress` (`Option.none` = `zlib.error`). -/
def readStack (inflate : List ℕ → Option (List ℕ)) (file : List ℕ) (s : Stack) :
    Except PyError NDArray :=
  match (if s.compression_type = 1 then
           match inflate ((file.drop s.data_pos).take s.data_length) with
           | some d => Except.ok d
           | Option.none => Except.error PyError.zlibError
         else Except.ok ((file.drop s.data_pos).take s.data_length)) with
  | .error e => .error e
  | .ok data =>
    match decodeInt16LE data with
    | .error e => .error e
    | .ok elts =>
      match npReshape elts s.shape.reverse with
      | .error e => .error e
      | .ok arr => .ok (npTranspose arr)

/-- A `Stack` object together with its mutable `_data` slot
(`None` before the first materialization, the cached array afterwards). -/
structure StackState where
  stack : Stack
  cache : Option NDArray
deriving DecidableEq, Repr

/-- The `data` branch of `Stack.__getattr__` (lines 242-246), instrumented
with the number of `File._read_stack` calls (each of which performs the
seek, the read and any decompression): when `_data` is `None`, load and store
it (one read); otherwise return the cached array (zero reads). -/
def getData (inflate : List ℕ → Option (List ℕ)) (file : List ℕ) (st : StackState) :
    Except PyError (NDArray × StackState × ℕ) :=
  match st.cache with
  | some a => .ok (a, st, 0)
  | Option.none =>
    match readStack inflate file st.stack with
    | .ok a => .ok (a, { stack := st.stack, cache := some a }, 1)
    | .error e => .error e

/-- The comprehension `[l / n for n, l in zip(self.shape, self.lengths)]`
(line 240), with Python floats idealized as rationals: `zip` truncates to the
shorter list, elements are computed left to right, and a zero shape entry
raises `ZeroDivisionError` at its position. -/
def pixelSizes : List ℕ → List ℚ → Except PyError (List ℚ)
  | [], _ => .ok []
  | _ :: _, [] => .ok []
  | n :: ns, l :: ls =>
    if n = 0 then .error .zeroDivision
    else
      match pixelSizes ns ls with
      | .error e => .error e
      | .ok rest => .ok (l / (n : ℚ) :: rest)

/-- Value of an IEEE-754 binary64 bit pattern as an exact rational;
infinities and NaNs (exponent field 2047) have no rational value. -/
def decodeF64 (bits : ℕ) : Option ℚ :=
  if bits % 2 ^ 64 / 2 ^ 52 % 2 ^ 11 = 2047 then Option.none
  else
    some ((if bits % 2 ^ 64 / 2 ^ 63 = 1 then (-1 : ℚ) else 1) *
      (if bits % 2 ^ 64 / 2 ^ 52 % 2 ^ 11 = 0 then
        ((bits % 2 ^ 52 : ℕ) : ℚ) * (2 : ℚ) ^ (-(1074 : ℤ))
      else
        ((2 ^ 52 + bits % 2 ^ 52 : ℕ) : ℚ) *
          (2 : ℚ) ^ ((bits % 2 ^ 64 / 2 ^ 52 % 2 ^ 11 : ℕ) - (1075 : ℤ))))

/-- A Python value as seen through attribute access on a `Stack`. -/
inductive PyValue where
  | none
  | nat (n : ℕ)
  | byteStr (bs : List ℕ)
  | natList (ns : List ℕ)
  | ratList (qs : List ℚ)
  | array (a : NDArray)
  | obfRef
deriving DecidableEq, Repr

/-- The attribute names assigned in `Stack.__init__` (lines 220-231); looking
any of these up succeeds through the instance dictionary, so `__getattr__` is
not called for them. -/
def stackInstanceAttrs : List String :=
  ["obf", "format_version", "name", "description", "shape", "lengths",
   "offsets", "data_type", "_compression_type", "_data_pos", "_data_length",
   "_data"]

/-- The value of an instance attribute of a `Stack`. -/
def instanceAttrValue (st : StackState) (nm : String) : PyValue :=
  if nm = "obf" then PyValue.obfRef
  else if nm = "format_version" then PyValue.nat st.stack.format_version
  else if nm = "name" then PyValue.byteStr st.stack.name
  else if nm = "description" then PyValue.byteStr st.stack.description
  else if nm = "shape" then PyValue.natList st.stack.shape
  else if nm = "lengths" then PyValue.natList st.stack.lengths
  else if nm = "offsets" then PyValue.natList st.stack.offsets
  else if nm = "data_type" then PyValue.nat st.stack.data_type
  else if nm = "_compression_type" then PyValue.nat st.stack.compression_type
  else if nm = "_data_pos" then PyValue.nat st.stack.data_pos
  else if nm = "_data_length" then PyValue.nat st.stack.data_length
  else match st.cache with
       | some a => PyValue.array a
       | Option.none => PyValue.none

/-- Python attribute access on a `Stack` instance: an attribute set in
`__init__` is found in the instance dictionary; otherwise `__getattr__`
(lines 233-246) runs: `pixel_sizes` is computed on the fly, `data` is the
lazily loaded array, and any other name falls off the end of the function
body, which returns `None` (class-level names such as `__init__` resolve on
the class before `__getattr__` and are outside this model). -/
def stackGetattr (inflate : List ℕ → Option (List ℕ)) (file : List ℕ)
    (st : StackState) (nm : String) : Except PyError (PyValue × StackState) :=
  if nm ∈ stackInstanceAttrs then .ok (instanceAttrValue st nm, st)
  else if nm = "pixel_sizes" then
    match st.stack.lengths.mapM decodeF64 with
    | some ls =>
      match pixelSizes st.stack.shape ls with
      | .error e => .error e
      | .ok ps => .ok (PyValue.ratList ps, st)
    | Option.none => .error .floatUnrepresentable
  else if nm = "data" then
    match getData inflate file st with
    | .error e => .error e
    | .ok (a, st2, _) => .ok (PyValue.array a, st2)
  else .ok (PyValue.none, st)

/-- Modelled from the spec: the record-header layout claimed in section 4.2,
which inserts one reserved uint32 slot between `description_byte_length` and
`payload_byte_length`.  Under that layout `payload_byte_length` would start at
byte 348 = 16 + 4 + 4 + 15*4 + 15*8 + 15*8 + 6*4. -/
def specPayloadByteOffset : ℕ := 16 + 4 + 4 + 15 * 4 + 15 * 8 + 15 * 8 + 6 * 4

/-- Modelled from the spec: under the layout of section 4.2,
`next_record_offset` would start at byte 364 (after `payload_byte_length`
and the reserved uint64). -/
def specNextByteOffset : ℕ := specPayloadByteOffset + 8 + 8

/-- Build a 368-byte stack header from field values (15 entries expected in
each of `shape`, `lengths`, `offsets`; the float64 entries are given directly
as 64-bit patterns). -/
def mkStackHeader (fv rank : ℕ) (shape lengths offsets : List ℕ)
    (dtype comp level nameLen descLen resv dataLen next : ℕ) : List ℕ :=
  STACK_MAGIC_HEADER ++ u32le fv ++ u32le rank
    ++ (shape.map u32le).flatten ++ (lengths.map u64le).flatten ++ (offsets.map u64le).flatten
    ++ u32le dtype ++ u32le comp ++ u32le level ++ u32le nameLen ++ u32le descLen
    ++ u64le resv ++ u64le dataLen ++ u64le next

/-- A header of rank 15 whose on-disk shape entries are 1..15, lengths
patterns 3000..3014 and offsets patterns 4000..4014. -/
def rank15Buf : List ℕ :=
  mkStackHeader 7 15 ((List.range 15).map (· + 1)) ((List.range 15).map (3000 + ·))
    ((List.range 15).map (4000 + ·)) 8 0 0 5 6 0 99 0

/-- A header identical to `rank15Buf` except that its rank field is 16,
exceeding `OMAS_BF_MAX_DIMENSIONS = 15`. -/
def rank16Buf : List ℕ :=
  mkStackHeader 7 16 ((List.range 15).map (· + 1)) ((List.range 15).map (3000 + ·))
    ((List.range 15).map (4000 + ·)) 8 0 0 5 6 0 99 0

/-- A rank-0 header whose three trailing uint64 fields hold 111 (reserved),
222 (payload length) and 333 (next offset), padded with four trailing bytes
77 so that byte positions up to 371 exist. -/
def taggedTailBuf : List ℕ :=
  mkStackHeader 1 0 (List.replicate 15 0) (List.replicate 15 0) (List.replicate 15 0)
    8 0 0 0 0 111 222 333 ++ [77, 77, 77, 77]

/-- A complete two-record container: 26-byte file header (version 1, first
record at offset 26, empty description), a rank-2 record with shape [2, 3],
name "abc", a 12-byte payload holding the int16 values 0..5, and a second
rank-0 empty record whose next offset is the sentinel 0. -/
def twoRecFile : List ℕ :=
  FILE_MAGIC_HEADER ++ u32le 1 ++ u64le 26 ++ u32le 0
    ++ mkStackHeader 1 2 ([2, 3] ++ List.replicate 13 0) (List.replicate 15 0)
      (List.replicate 15 0) 8 0 0 3 0 0 12 409
    ++ [97, 98, 99]
    ++ [0, 0, 1, 0, 2, 0, 3, 0, 4, 0, 5, 0]
    ++ mkStackHeader 1 0 (List.replicate 15 0) (List.replicate 15 0)
      (List.replicate 15 0) 1 0 0 0 0 0 0 0

/-- The first record of `twoRecFile` as parsed: payload at 26+368+3 = 397. -/
def stackA : Stack :=
  { format_version := 1, name := [97, 98, 99], description := [], shape := [2, 3],
    lengths := [0, 0], offsets := [0, 0], data_type := 8, compression_type := 0,
    data_pos := 397, data_length := 12 }

/-- The second record of `twoRecFile` as parsed: payload position 409+368 = 777. -/
def stackB : Stack :=
  { format_version := 1, name := [], description := [], shape := [],
    lengths := [], offsets := [], data_type := 1, compression_type := 0,
    data_pos := 777, data_length := 0 }

/-- A decompressor that always fails; with it, any successful `readStack`
demonstrably never called `zlib.decompress`. -/
def noInflate : List ℕ → Option (List ℕ) := fun _ => Option.none

/-- The 12-byte uncompressed payload of the C1 scenario: the six sequential
16-bit integers 0, 1, 2, 3, 4, 5 in little-endian order. -/
def scenarioFile : List ℕ := [0, 0, 1, 0, 2, 0, 3, 0, 4, 0, 5, 0]

/-- The C1 scenario record: rank 2, shape [2, 3], uncompressed, whole file as
payload. -/
def scenarioStack : Stack :=
  { format_version := 1, name := [], description := [], shape := [2, 3],
    lengths := [0, 0], offsets := [0, 0], data_type := 8, compression_type := 0,
    data_pos := 0, data_length := 12 }

/-- The array the code actually materializes for the C1 scenario:
shape [2, 3] with rows [0, 2, 4] and [1, 3, 5]. -/
def scenarioResult : NDArray := { shape := [2, 3], data := [0, 2, 4, 1, 3, 5] }

/-- A record with the unknown compression code 2 over a 4-byte payload file. -/
def unknownCompStack : Stack :=
  { format_version := 1, name := [], description := [], shape := [2],
    lengths := [0], offsets := [0], data_type := 8, compression_type := 2,
    data_pos := 0, data_length := 4 }

/-- The 4-byte payload file for `unknownCompStack`: int16 values 1 and 2. -/
def unknownCompFile : List ℕ := [1, 0, 2, 0]

/-- On a full-length buffer with valid magic and data type, the header parse
succeeds and every field is read from its byte position in the packed
little-endian layout `<16s17I30d5I3Q>`: format_version at 16, rank at 20, the
14 sliced shape entries at 24 + 4k, the 14 sliced lengths at 84 + 8k, the 14
sliced offsets at 204 + 8k, data_type at 324, compression at 328, name length
at 336, description length at 340, payload length at 352, next offset at 360. -/
lemma parseStackHeader_eq (buf : List ℕ) (h1 : ¬ buf.length < 368)
    (h2 : buf.take 16 = STACK_MAGIC_HEADER) (h3 : readU32 buf 324 ∈ omas_data_types) :
    parseStackHeader buf = .ok
      { format_version := readU32 buf 16
        rank := readU32 buf 20
        shape := ((List.range 14).map (fun k => readU32 buf (24 + 4 * k))).take (readU32 buf 20)
        lengths := ((List.range 14).map (fun k => readU64 buf (84 + 8 * k))).take (readU32 buf 20)
        offsets := ((List.range 14).map (fun k => readU64 buf (204 + 8 * k))).take (readU32 buf 20)
        data_type := readU32 buf 324
        compression_type := readU32 buf 328
        name_len := readU32 buf 336
        desc_len := readU32 buf 340
        data_length := readU64 buf 352
        next_pos := readU64 buf 360 } := by
  have hm : valField (stackHeaderUnpack buf) 0 = TupleEntry.bs STACK_MAGIC_HEADER := by
    show TupleEntry.bs (buf.take 16) = TupleEntry.bs STACK_MAGIC_HEADER
    rw [h2]
  have hd : valNat (stackHeaderUnpack buf) 48 = readU32 buf 324 := rfl
  unfold parseStackHeader
  rw [if_neg h1, if_pos hm, if_pos (by rw [hd]; exact h3)]
  simp only [Except.ok.injEq, RawStackHeader.mk.injEq]
  refine ⟨rfl, rfl, ?_, ?_, ?_, rfl, rfl, rfl, rfl, rfl, rfl⟩
  all_goals rw [List.map_take]; rfl

/-- Claim C7 (amended): the record header layout is, little-endian and packed:
16-byte magic, uint32 format_version, uint32 rank, 15 uint32 shape entries,
15 float64 lengths, 15 float64 offsets, then FIVE uint32 fields (data_type,
compression_kind, compression_level, name_byte_length,
description_byte_length) and THREE uint64 fields (reserved,
payload_byte_length, next_record_offset) — there is no reserved uint32 slot —
so the fixed header is 368 bytes and the parser reads payload_byte_length
from bytes 352-359 and next_record_offset from bytes 360-367. -/
theorem c7_header_layout (buf : List ℕ) (h1 : ¬ buf.length < 368)
    (h2 : buf.take 16 = STACK_MAGIC_HEADER) (h3 : readU32 buf 324 ∈ omas_data_types) :
    stack_header_len = 368 ∧
    (parseStackHeader buf).map
        (fun r => (r.format_version, r.rank, r.data_type, r.compression_type,
          r.name_len, r.desc_len, r.data_length, r.next_pos))
      = .ok (readU32 buf 16, readU32 buf 20, readU32 buf 324, readU32 buf 328,
          readU32 buf 336, readU32 buf 340, readU64 buf 352, readU64 buf 360) := by
  refine ⟨rfl, ?_⟩
  rw [parseStackHeader_eq buf h1 h2 h3]
  rfl

/-- Witness for C7 at a concrete header whose three trailing uint64 fields
are 111, 222, 333. -/
theorem c7_header_layout_witness :
    (parseStackHeader taggedTailBuf).map
        (fun r => (r.format_version, r.rank, r.data_type, r.compression_type,
          r.name_len, r.desc_len, r.data_length, r.next_pos))
      = .ok (readU32 taggedTailBuf 16, readU32 taggedTailBuf 20,
          readU32 taggedTailBuf 324, readU32 taggedTailBuf 328,
          readU32 taggedTailBuf 336, readU32 taggedTailBuf 340,
          readU64 taggedTailBuf 352, readU64 taggedTailBuf 360) :=
  (c7_header_layout taggedTailBuf (by decide) (by decide) (by decide)).2

/-- Counterexample to claim C7 as stated: with the reserved uint32 slot the
spec describes, payload_byte_length would sit at byte 348 and
next_record_offset at byte 364; on a header whose trailing uint64 fields are
111 (reserved), 222 (payload length) and 333 (next offset), the parser
returns 222 and 333, which are NOT the values stored at the spec positions
348 and 364. -/
theorem c7_counterexample :
    (parseStackHeader taggedTailBuf).map (fun r => (r.data_length, r.next_pos))
        = .ok (222, 333)
    ∧ readU64 taggedTailBuf specPayloadByteOffset ≠ 222
    ∧ readU64 taggedTailBuf specNextByteOffset ≠ 333
    ∧ specPayloadByteOffset = 348 ∧ specNextByteOffset = 364 := by decide

/-- Claim C2 (code bug, off-by-one): the slices `values[3:17]`,
`values[18:32]`, `values[33:47]` are only 14 entries wide, so a record header
with rank 15 yields shape, lengths and offsets of length 14, not 15: on a
header with rank 15 and on-disk shape 1..15, lengths patterns 3000..3014 and
offsets patterns 4000..4014, the 15th entry of each array is dropped. -/
theorem c2_rank15_truncation :
    (parseStackHeader rank15Buf).map (fun r => (r.rank, r.shape, r.lengths, r.offsets))
      = .ok (15, [1, 2, 3, 4, 5, 6, 7, 8, 9, 10, 11, 12, 13, 14],
          [3000, 3001, 3002, 3003, 3004, 3005, 3006, 3007, 3008, 3009, 3010, 3011, 3012, 3013],
          [4000, 4001, 4002, 4003, 4004, 4005, 4006, 4007, 4008, 4009, 4010, 4011, 4012, 4013]) := by
  decide

/-- Claim C5 (amended): the rank field is not validated against
MAX_DIMENSIONS = 15; a header whose rank exceeds 15 parses successfully
(given valid magic and data type), the rank is stored as read, and shape,
lengths and offsets are silently truncated to the 14 parsed entries. -/
theorem c5_rank_not_validated (buf : List ℕ) (h1 : ¬ buf.length < 368)
    (h2 : buf.take 16 = STACK_MAGIC_HEADER) (h3 : readU32 buf 324 ∈ omas_data_types)
    (h4 : 15 < readU32 buf 20) :
    ∃ r, parseStackHeader buf = .ok r ∧ r.rank = readU32 buf 20 ∧
      r.shape.length = 14 ∧ r.lengths.length = 14 ∧ r.offsets.length = 14 := by
  refine ⟨_, parseStackHeader_eq buf h1 h2 h3, rfl, ?_, ?_, ?_⟩
  all_goals
    simp only [List.length_take, List.length_map, List.length_range]
    omega

/-- Witness for C5 at a concrete header whose rank field is 16. -/
theorem c5_rank_not_validated_witness :
    ∃ r, parseStackHeader rank16Buf = .ok r ∧ r.rank = readU32 rank16Buf 20 ∧
      r.shape.length = 14 ∧ r.lengths.length = 14 ∧ r.offsets.length = 14 :=
  c5_rank_not_validated rank16Buf (by decide) (by decide) (by decide) (by decide)

/-- Counterexample to claim C5 as stated: a record header with rank 16 > 15
does not fail at header-parse time; it parses to a record (with rank 16 and
14 shape entries), so rank is accepted rather than validated. -/
theorem c5_counterexample :
    (parseStackHeader rank16Buf).map (fun r => (r.rank, r.shape.length))
      = .ok (16, 14) := by decide

/-- Claim C4: the directory walk starts at the file header first-record
offset, parses one record header plus its length-prefixed name and
description at each node, records the payload offset as the cursor position
right after that text, appends the record and continues at the next offset;
it stops exactly when that offset is 0.  In particular the walk at offset 0
yields no records, and the synthetic two-record container `twoRecFile`
(first record at 26 pointing at 409, second record ending with 0) opens to
a list of exactly the two records in file order, the first with payload
offset 397 = 26 + 368 + 3 (header plus the 3-byte name "abc"). -/
theorem c4_directory_walk :
    (∀ (file : List ℕ) (fuel : ℕ), walkStacks file 0 (fuel + 1) = .ok [])
    ∧ obfOpen twoRecFile 3
      = .ok { format_version := 1, description := [], stackList := [stackA, stackB] } :=
  ⟨fun _ _ => rfl, by decide⟩

/-- Claim C1 (amended): the materializer reshapes the flat element buffer
with the shape reversed and then transposes, so the materialized array shape
always equals the declared shape in declared order; but this two-step
transform reads the flat buffer with the FIRST listed axis varying fastest,
so for a rank-2 record of shape [2, 3] with uncompressed payload 0..5 the
materialized array is [[0, 2, 4], [1, 3, 5]], not [[0, 1, 2], [3, 4, 5]]. -/
theorem c1_reshape_transpose :
    (∀ (inflate : List ℕ → Option (List ℕ)) (file : List ℕ) (s : Stack) (a : NDArray),
      readStack inflate file s = .ok a → a.shape = s.shape)
    ∧ readStack noInflate scenarioFile scenarioStack = .ok scenarioResult
    ∧ scenarioResult.shape = [2, 3] ∧ scenarioResult.data = [0, 2, 4, 1, 3, 5] := by
  refine ⟨?_, by decide, by decide, by decide⟩
  intro inflate file s a h
  unfold readStack at h
  split at h
  · exact absurd h (by simp)
  · split at h
    · exact absurd h (by simp)
    · split at h
      · exact absurd h (by simp)
      · rename_i arr heq
        cases h
        unfold npReshape at heq
        split at heq
        · cases heq
          simp [npTranspose, List.reverse_reverse]
        · exact absurd heq (by simp)

/-- Witness for C1: the scenario record materializes successfully and the
shape of the result equals the declared shape [2, 3]. -/
theorem c1_reshape_transpose_witness : scenarioResult.shape = scenarioStack.shape :=
  c1_reshape_transpose.1 noInflate scenarioFile scenarioStack scenarioResult
    c1_reshape_transpose.2.1

/-- Counterexample to claim C1 as stated: the scenario record of shape [2, 3]
with uncompressed payload of the six sequential 16-bit integers 0..5
materializes to [[0, 2, 4], [1, 3, 5]], which differs from the claimed
[[0, 1, 2], [3, 4, 5]]. -/
theorem c1_counterexample :
    readStack noInflate scenarioFile scenarioStack = .ok scenarioResult
    ∧ scenarioResult ≠ { shape := [2, 3], data := [0, 1, 2, 3, 4, 5] } := by decide

/-- Claim C3: the materializer interprets the (possibly decompressed) payload
buffer unconditionally as 16-bit signed little-endian integers: the declared
data_type of the record has no effect on the result, and the decoder maps
the bytes 0x34 0x12 to 0x1234 = 4660 (little-endian) and 0xff 0xff to -1
(signed). -/
theorem c3_int16_unconditional :
    (∀ (inflate : List ℕ → Option (List ℕ)) (file : List ℕ) (s : Stack) (dt : ℕ),
      readStack inflate file { s with data_type := dt } = readStack inflate file s)
    ∧ decodeInt16LE [52, 18, 255, 255] = .ok [4660, -1] :=
  ⟨fun _ _ _ _ => rfl, by decide⟩

/-- Claim C6 (amended): a compression code other than 1 is silently treated
as no compression: the payload is decoded exactly as for an uncompressed
record (compression code 0), and no error is raised. -/
theorem c6_unknown_compression_passthrough (inflate : List ℕ → Option (List ℕ))
    (file : List ℕ) (s : Stack) (h : s.compression_type ≠ 1) :
    readStack inflate file s = readStack inflate file { s with compression_type := 0 } := by
  unfold readStack
  rw [if_neg h, if_neg (by simp)]

/-- Witness for C6 at the concrete record with compression code 2. -/
theorem c6_unknown_compression_passthrough_witness :
    readStack noInflate unknownCompFile unknownCompStack
      = readStack noInflate unknownCompFile { unknownCompStack with compression_type := 0 } :=
  c6_unknown_compression_passthrough noInflate unknownCompFile unknownCompStack (by decide)

/-- Counterexample to claim C6 as stated: a record with the unknown
compression code 2 does not raise; its payload is decoded as if uncompressed
(the decompressor passed here fails on any input, so decompression was never
attempted). -/
theorem c6_counterexample :
    unknownCompStack.compression_type = 2
    ∧ readStack noInflate unknownCompFile unknownCompStack
        = .ok { shape := [2], data := [1, 2] } := by decide

/-- Claim C8: when a record whose `_data` slot is still empty materializes
successfully, the first `data` access performs exactly one read (seek, read
and any decompression happen inside that single `File._read_stack` call),
stores the array, and the second access returns the identical cached array
with the state unchanged and zero further reads. -/
theorem c8_data_cached_once (inflate : List ℕ → Option (List ℕ)) (file : List ℕ)
    (s : Stack) (a : NDArray) (h : readStack inflate file s = .ok a) :
    getData inflate file { stack := s, cache := Option.none }
        = .ok (a, { stack := s, cache := some a }, 1)
    ∧ getData inflate file { stack := s, cache := some a }
        = .ok (a, { stack := s, cache := some a }, 0) := by
  constructor
  · simp [getData, h]
  · rfl

/-- Witness for C8 at the concrete scenario record. -/
theorem c8_data_cached_once_witness :
    getData noInflate scenarioFile { stack := scenarioStack, cache := Option.none }
        = .ok (scenarioResult, { stack := scenarioStack, cache := some scenarioResult }, 1)
    ∧ getData noInflate scenarioFile { stack := scenarioStack, cache := some scenarioResult }
        = .ok (scenarioResult, { stack := scenarioStack, cache := some scenarioResult }, 0) :=
  c8_data_cached_once noInflate scenarioFile scenarioStack scenarioResult (by decide)

/-- Claim C9: when every shape entry is positive, `pixel_sizes` is the
sequence of `lengths[i] / shape[i]` over the zipped axes in order; when some
shape entry within the zipped range is 0, accessing `pixel_sizes` raises
`ZeroDivisionError` rather than producing a value. -/
theorem c9_pixel_sizes (shape : List ℕ) (lengths : List ℚ) :
    ((∀ n ∈ shape, 0 < n) →
      pixelSizes shape lengths
        = .ok ((shape.zip lengths).map (fun p => p.2 / (p.1 : ℚ))))
    ∧ (0 ∈ shape.take lengths.length →
      pixelSizes shape lengths = .error .zeroDivision) := by
  induction shape generalizing lengths with
  | nil =>
    refine ⟨fun _ => rfl, fun h => absurd h (by simp)⟩
  | cons n ns ih =>
    cases lengths with
    | nil =>
      refine ⟨fun _ => rfl, fun h => absurd h (by simp)⟩
    | cons l ls =>
      constructor
      · intro h
        have hn : ¬ n = 0 := Nat.pos_iff_ne_zero.mp (h n (List.mem_cons_self n ns))
        have ht := (ih ls).1 (fun m hm => h m (List.mem_cons_of_mem n hm))
        simp only [pixelSizes, if_neg hn, ht, List.zip_cons_cons, List.map_cons]
      · intro h0
        by_cases hn : n = 0
        · simp [pixelSizes, hn]
        · have h0' : 0 ∈ ns.take ls.length := by
            simp only [List.length_cons, List.take_succ_cons, List.mem_cons] at h0
            exact h0.resolve_left (fun h => hn h.symm)
          simp [pixelSizes, hn, (ih ls).2 h0']

/-- Witness for C9: a record with shape [2, 4] and lengths 6, 10 has pixel
sizes 3 and 5/2; a record with shape [2, 0] raises `ZeroDivisionError`. -/
theorem c9_pixel_sizes_witness :
    pixelSizes [2, 4] [(6 : ℚ), 10] = .ok [3, 5 / 2]
    ∧ pixelSizes [2, 0] [(6 : ℚ), 10] = .error .zeroDivision := by
  constructor
  · rw [(c9_pixel_sizes [2, 4] [(6 : ℚ), 10]).1 (by decide)]
    norm_num
  · exact (c9_pixel_sizes [2, 0] [(6 : ℚ), 10]).2 (by decide)

/-- Claim C10: for every attribute name that is not one of the instance
attributes assigned in `Stack.__init__` and is neither `pixel_sizes` nor
`data`, attribute access on a record returns `None` (the `__getattr__`
fallback falls off the end of the function body) instead of raising
`AttributeError`. -/
theorem c10_getattr_fallthrough (inflate : List ℕ → Option (List ℕ)) (file : List ℕ)
    (st : StackState) (nm : String) (h1 : nm ∉ stackInstanceAttrs)
    (h2 : nm ≠ "pixel_sizes") (h3 : nm ≠ "data") :
    stackGetattr inflate file st nm = .ok (PyValue.none, st) := by
  unfold stackGetattr
  rw [if_neg h1, if_neg h2, if_neg h3]

/-- Witness for C10 at the concrete unknown attribute name "foo". -/
theorem c10_getattr_fallthrough_witness :
    stackGetattr noInflate scenarioFile { stack := scenarioStack, cache := Option.none } "foo"
      = .ok (PyValue.none, { stack := scenarioStack, cache := Option.none }) :=
  c10_getattr_fallthrough noInflate scenarioFile
    { stack := scenarioStack, cache := Option.none } "foo"
    (by decide) (by decide) (by decide)
